import Mathlib

/-!
Shallow embedding of the order-lifecycle service (src/index.js and
src/unnamed/part_000) for checking the natural-language specification.

Conventions used throughout:
* JavaScript `null`/`undefined` string values are modelled as `Option String`
  (`none` = absent), and JS truthiness of strings (`""` is falsy) and of
  numbers (`0` is falsy) is made explicit through the `js*` helpers below.
* Firebase writes (`dbSet`, `dbUpdate`) and outbound calls (WhatsApp template
  send, Shopify note update, PostEx booking) are modelled as an explicit
  effect list produced by each handler; the database image of a write is
  computed by the `apply*` functions.
* The `crypto` library call `createHmac("sha256", key).update(buf).digest("base64")`
  is modelled by a concrete executable HMAC-SHA256 plus base64 encoder.
-/

namespace Automation

/-- JS truthiness for an optional string: `null`/`undefined` and `""` are falsy. -/
def jsTruthyStr : Option String → Bool
  | none => false
  | some s => s ≠ ""

/-- JS `a || b` on optional strings (`""` is falsy and falls through). -/
def jsStrOr (a b : Option String) : Option String :=
  if jsTruthyStr a then a else b

/-- JS `a || d` on an optional string with a string default. -/
def jsStrOrD (a : Option String) (d : String) : String :=
  if jsTruthyStr a then a.getD d else d

/-- JS `a || d` on an optional number with a numeric default (`0` is falsy). -/
def jsNumOrD (a : Option Nat) (d : Nat) : Nat :=
  match a with
  | none => d
  | some n => if n = 0 then d else n

/-- JS string interpolation of a possibly-undefined value: template literals
render `undefined` as the string `"undefined"`. -/
def jsStr : Option String → String
  | none => "undefined"
  | some s => s

/-- `String(raw).replace(/\D/g, "")`: keep only ASCII digits (as a char list;
JS strings are modelled through their character lists where the JS code
indexes, slices or measures them). -/
def digitsOf (s : String) : List Char :=
  s.toList.filter Char.isDigit

/-- The env default `DEFAULT_COUNTRY_CODE = "92"`. -/
def DEFAULT_COUNTRY_CODE : String := "92"

/-- `normalizePhone` from src/index.js lines 65-73 (identical in
src/unnamed/part_000 lines 69-77).  `raw` models the JS argument, which may be
`null`/`undefined` (`none`) or a string; the result models the JS return value
(`null` or a string).  `d.startsWith "0"` is `d.take 1 = ['0']`,
`d.startsWith cc` is `d.take cc.length = cc`, `cc + d.slice(1)` is
`cc ++ d.drop 1`. -/
def normalizePhone (raw : Option String) (cc : String := DEFAULT_COUNTRY_CODE) :
    Option String :=
  if ¬ jsTruthyStr raw then none
  else
    let d := digitsOf (raw.getD "")
    let ccl := cc.toList
    if d = [] then none
    else if d.take 1 = ['0'] then some (String.mk (ccl ++ d.drop 1))
    else if d.take ccl.length = ccl then some (String.mk d)
    else if d.length ≤ 10 then some (String.mk (ccl ++ d))
    else some (String.mk d)

/-! ### HMAC-SHA256 and base64 (model of the `crypto` library calls) -/

namespace Crypto

/-- Truncate to a 32-bit word. -/
def wmask (x : Nat) : Nat := x % 4294967296

/-- 32-bit right rotation. -/
def rotr (n x : Nat) : Nat := (x >>> n) ||| (wmask (x <<< (32 - n)))

def smallSigma0 (x : Nat) : Nat := (rotr 7 x) ^^^ (rotr 18 x) ^^^ (x >>> 3)
def smallSigma1 (x : Nat) : Nat := (rotr 17 x) ^^^ (rotr 19 x) ^^^ (x >>> 10)
def bigSigma0 (x : Nat) : Nat := (rotr 2 x) ^^^ (rotr 13 x) ^^^ (rotr 22 x)
def bigSigma1 (x : Nat) : Nat := (rotr 6 x) ^^^ (rotr 11 x) ^^^ (rotr 25 x)
def chFn (x y z : Nat) : Nat := (x &&& y) ^^^ ((x ^^^ 4294967295) &&& z)
def majFn (x y z : Nat) : Nat := (x &&& y) ^^^ (x &&& z) ^^^ (y &&& z)

/-- The 64 SHA-256 round constants (FIPS 180-4), in decimal. -/
def sha256K : List Nat :=
  [1116352408, 1899447441, 3049323471, 3921009573, 961987163,
   1508970993, 2453635748, 2870763221, 3624381080, 310598401,
   607225278, 1426881987, 1925078388, 2162078206, 2614888103,
   3248222580, 3835390401, 4022224774, 264347078, 604807628,
   770255983, 1249150122, 1555081692, 1996064986, 2554220882,
   2821834349, 2952996808, 3210313671, 3336571891, 3584528711,
   113926993, 338241895, 666307205, 773529912, 1294757372,
   1396182291, 1695183700, 1986661051, 2177026350, 2456956037,
   2730485921, 2820302411, 3259730800, 3345764771, 3516065817,
   3600352804, 4094571909, 275423344, 430227734, 506948616,
   659060556, 883997877, 958139571, 1322822218, 1537002063,
   1747873779, 1955562222, 2024104815, 2227730452, 2361852424,
   2428436474, 2756734187, 3204031479, 3329325298]

/-- The initial SHA-256 hash state (FIPS 180-4), in decimal. -/
def sha256H0 : List Nat :=
  [1779033703, 3144134277, 1013904242, 2773480762,
   1359893119, 2600822924, 528734635, 1541459225]

/-- Big-endian bytes to 32-bit words. -/
def bytesToWords : List Nat → List Nat
  | b0 :: b1 :: b2 :: b3 :: rest =>
      (((b0 * 256 + b1) * 256 + b2) * 256 + b3) :: bytesToWords rest
  | _ => []

/-- One 32-bit word to big-endian bytes. -/
def wordToBytes (w : Nat) : List Nat :=
  [(w >>> 24) % 256, (w >>> 16) % 256, (w >>> 8) % 256, w % 256]

/-- Extend the 16-word block schedule by `n` further words. -/
def extendSchedule : Nat → List Nat → List Nat
  | 0, ws => ws
  | n + 1, ws =>
      let i := ws.length
      let w := wmask (smallSigma1 (ws.getD (i - 2) 0) + ws.getD (i - 7) 0 +
                      smallSigma0 (ws.getD (i - 15) 0) + ws.getD (i - 16) 0)
      extendSchedule n (ws ++ [w])

/-- One SHA-256 compression round on the 8-word working state. -/
def sha256Round (st : List Nat) (kw : Nat × Nat) : List Nat :=
  match st with
  | [a, b, c, d, e, f, g, h] =>
      let t1 := wmask (h + bigSigma1 e + chFn e f g + kw.1 + kw.2)
      let t2 := wmask (bigSigma0 a + majFn a b c)
      [wmask (t1 + t2), a, b, c, wmask (d + t1), e, f, g]
  | st => st

/-- Compress one 64-byte block into the hash state. -/
def sha256Block (h : List Nat) (block : List Nat) : List Nat :=
  let ws := extendSchedule 48 (bytesToWords block)
  let st := (sha256K.zip ws).foldl sha256Round h
  (h.zip st).map (fun p => wmask (p.1 + p.2))

/-- SHA-256 padding: `0x80`, zeros, then the 64-bit big-endian bit length. -/
def sha256Pad (msg : List Nat) : List Nat :=
  let len := msg.length
  let r := (len + 1) % 64
  let zeros := if r ≤ 56 then 56 - r else 120 - r
  let bitLen := len * 8
  msg ++ [0x80] ++ List.replicate zeros 0 ++
    [(bitLen >>> 56) % 256, (bitLen >>> 48) % 256, (bitLen >>> 40) % 256,
     (bitLen >>> 32) % 256, (bitLen >>> 24) % 256, (bitLen >>> 16) % 256,
     (bitLen >>> 8) % 256, bitLen % 256]

/-- Split into 64-byte chunks (fuel-based recursion). -/
def chunks64Go : Nat → List Nat → List (List Nat)
  | 0, _ => []
  | _ + 1, [] => []
  | n + 1, l => l.take 64 :: chunks64Go n (l.drop 64)

def chunks64 (l : List Nat) : List (List Nat) :=
  chunks64Go (l.length / 64 + 1) l

/-- SHA-256 of a byte list, as a 32-byte digest. -/
def sha256 (msg : List Nat) : List Nat :=
  (((chunks64 (sha256Pad msg)).foldl sha256Block sha256H0).map wordToBytes).flatten

/-- HMAC-SHA256 with a byte-list key and message (block size 64). -/
def hmacSha256 (key msg : List Nat) : List Nat :=
  let k0 := if 64 < key.length then sha256 key else key
  let k := k0 ++ List.replicate (64 - k0.length) 0
  sha256 ((k.map (fun b => b ^^^ 0x5c)) ++ sha256 ((k.map (fun b => b ^^^ 0x36)) ++ msg))

def base64Alphabet : List Char :=
  "ABCDEFGHIJKLMNOPQRSTUVWXYZabcdefghijklmnopqrstuvwxyz0123456789+/".toList

def b64c (n : Nat) : Char := base64Alphabet.getD n 'A'

/-- Standard base64 encoding of a byte list. -/
def base64Encode : List Nat → String
  | [] => ""
  | [b0] =>
      String.mk [b64c (b0 >>> 2), b64c ((b0 % 4) <<< 4), '=', '=']
  | [b0, b1] =>
      String.mk [b64c (b0 >>> 2), b64c (((b0 % 4) <<< 4) + (b1 >>> 4)),
                 b64c ((b1 % 16) <<< 2), '=']
  | b0 :: b1 :: b2 :: rest =>
      String.mk [b64c (b0 >>> 2), b64c (((b0 % 4) <<< 4) + (b1 >>> 4)),
                 b64c (((b1 % 16) <<< 2) + (b2 >>> 6)), b64c (b2 % 64)] ++
      base64Encode rest

/-- ASCII string to bytes (all strings appearing here are ASCII). -/
def strToBytes (s : String) : List Nat :=
  s.toList.map Char.toNat

end Crypto

/-- `verifyShopify` from src/index.js lines 155-159 (identical in
src/unnamed/part_000 lines 200-204): the header `X-Shopify-Hmac-Sha256`
(`none` when absent) is compared with `===` against the base64 HMAC-SHA256 of
the exact raw body bytes under the webhook secret. -/
def verifyShopify (webhook : String) (hmacHeader : Option String)
    (buf : List Nat) : Bool :=
  let hash := Crypto.base64Encode (Crypto.hmacSha256 (Crypto.strToBytes webhook) buf)
  match hmacHeader with
  | none => false
  | some h => h == hash

/-! ### Data model: the Firebase documents read and written by the handlers -/

/-- A loosely-typed field that the code stores either as a string (the literal
`"waiting"`) or as a `Date.now()` number; `undef` models an absent key. -/
inductive JsLit where
  | undef
  | str (s : String)
  | num (n : Nat)
deriving Repr, DecidableEq

structure Customer where
  name : String
  phone : Option String
  city : Option String
  address : Option String
deriving Repr, DecidableEq

structure AmountNode where
  total : Option String
  currency : Option String
deriving Repr, DecidableEq

structure ProductNode where
  name : String
  qty : Nat
deriving Repr, DecidableEq

structure Timeline where
  createdAt : Option Nat
  confirmedAt : JsLit
  fulfilledAt : JsLit
  deliveredAt : JsLit
  cancelledAt : Option Nat
  lastMsgSentAt : Option Nat
  lastCustomerReplyAt : Option Nat
deriving Repr, DecidableEq

structure WhatsappFlags where
  confirmation_sent : Bool
  fulfilled_sent : Bool
  confirmation_reply : Bool
deriving Repr, DecidableEq

structure PostexNode where
  trackingNumber : Option String
  lastStatus : Option String
  bookedAt : Option Nat
  status : Option String
deriving Repr, DecidableEq

/-- An order document under `stores/{storeId}/orders/{orderId}`. -/
structure Order where
  order_id : String
  order_name : String
  customer : Customer
  amount : AmountNode
  product : ProductNode
  status : String
  timeline : Timeline
  whatsapp : WhatsappFlags
  postex : Option PostexNode
  notes : Option String
deriving Repr, DecidableEq

/-- The `stores/{storeId}/secrets` document (only the fields the code reads;
`settings.autoPostExBooking` is flattened to a boolean since only its
truthiness is consulted). -/
structure Secrets where
  SHOPIFY_SHOP : String
  SHOPIFY_ACCESS_TOKEN : String
  SHOPIFY_WEBHOOK_SECRET : String
  POSTEX_API_TOKEN : Option String
  OWNER_PHONE : Option String
  store_id : Option String
  pickupAddressCode : Option String
  storeAddressCode : Option String
  autoPostExBooking : Bool
deriving Repr, DecidableEq

structure StoreNode where
  secrets : Option Secrets
  orders : List (String × Order)
deriving Repr, DecidableEq

/-- The realtime-database root: `index/{shopUsername}.storeId` plus
`stores/{storeId}`.  Association lists keep object-key enumeration order. -/
structure DB where
  index : List (String × String)
  stores : List (String × StoreNode)
deriving Repr, DecidableEq

def assocFind (l : List (String × α)) (k : String) : Option α :=
  (l.find? (fun e => e.1 == k)).map (·.2)

def dbGetStore (db : DB) (storeId : String) : Option StoreNode :=
  assocFind db.stores storeId

def dbGetOrder (db : DB) (storeId orderId : String) : Option Order :=
  (dbGetStore db storeId).bind fun s => assocFind s.orders orderId

def dbGetSecrets (db : DB) (storeId : String) : Option Secrets :=
  (dbGetStore db storeId).bind (·.secrets)

/-! ### Effects: the outbound calls and database writes a handler performs -/

/-- The update object passed to `dbUpdate` by both `/webhook/whatsapp`
handlers.  `Option Nat` timestamp fields model the conditionally-spread keys
(`none` = key absent from the update).  The `whatsapp` child object is written
wholesale. -/
structure WaUpdate where
  status : String
  lastCustomerReplyAt : Nat
  confirmedAt : Option Nat
  cancelledAt : Option Nat
  lastMsgSentAt : Option Nat
  whatsapp : WhatsappFlags
deriving Repr, DecidableEq

/-- The update object written by the fulfillment webhook. -/
structure FulfillUpdate where
  status : String
  fulfilledAt : Nat
  fulfilled_sent : Bool
  lastMsgSentAt : Nat
deriving Repr, DecidableEq

/-- The update object written by `createPostExOrderIfAllowed` after a
successful booking: a fresh `postex` child object plus top-level status. -/
structure PostexBookedUpdate where
  trackingNumber : String
  bookedAt : Nat
  postex_status : String
  status : String
deriving Repr, DecidableEq

/-- The request body built by `createPostExOrder`. -/
structure PostExPayload where
  cityName : String
  customerName : String
  customerPhone : Option String
  deliveryAddress : String
  invoiceDivision : Nat
  invoicePayment : JsLit
  items : Nat
  orderDetail : String
  orderRefNumber : String
  orderType : String
  transactionNotes : String
  pickupAddressCode : String
  storeAddressCode : String
deriving Repr, DecidableEq

inductive Effect where
  | sendTemplate (phone templateName : String) (bodyParams : List String)
      (quickReplyPayloads : List String) (urlButton : Option String)
  | shopifyNote (orderId shop access note : String)
  | postexCreate (payload : PostExPayload)
  | orderSet (storeId orderId : String) (record : Order)
  | waDbUpdate (storeId orderId : String) (u : WaUpdate)
  | fulfillDbUpdate (storeId orderId : String) (u : FulfillUpdate)
  | postexBookedDbUpdate (storeId orderId : String) (u : PostexBookedUpdate)
  | postexStatusDbUpdate (storeId orderId : String) (lastStatus : Option String)
deriving Repr, DecidableEq

/-- `sendWhatsAppTemplate`: returns without calling the API when the phone or
template name is missing/empty; `urlButton` carries the url of the optional
url-button component (part_000 only; index.js always passes no url button). -/
def sendWhatsAppTemplate (phone : Option String) (templateName : String)
    (bodyParams : List String := []) (quickReplyPayloads : List String := [])
    (urlButton : Option String := none) : List Effect :=
  if ¬ jsTruthyStr phone ∨ templateName = "" then []
  else [.sendTemplate (phone.getD "") templateName bodyParams quickReplyPayloads urlButton]

/-! ### findLatestStoreByPhone (identical in both files) -/

structure FoundMatch where
  storeId : String
  orderId : String
  order : Order
deriving Repr, DecidableEq

/-- `order.timeline?.lastMsgSentAt || order.timeline?.createdAt || 0`. -/
def replyMatchTime (o : Order) : Nat :=
  jsNumOrD o.timeline.lastMsgSentAt (jsNumOrD o.timeline.createdAt 0)

/-- One iteration of the inner `for (const orderId in orders)` loop. -/
def flspStep (phone sid : String) (acc : Option FoundMatch × Nat)
    (e : String × Order) : Option FoundMatch × Nat :=
  if e.2.customer.phone = some phone then
    let time := replyMatchTime e.2
    if acc.2 < time then (some ⟨sid, e.1, e.2⟩, time) else acc
  else acc

def findLatestStoreByPhone (phone : String) (stores : List (String × StoreNode)) :
    Option FoundMatch :=
  (stores.foldl (fun acc s => s.2.orders.foldl (flspStep phone s.1) acc)
    ((none : Option FoundMatch), 0)).1

/-! ### The customer-reply webhooks -/

/-- The relevant part of the Meta message envelope:
`msg.from` and `msg.button?.payload`. -/
structure WaMessage where
  fromPhone : Option String
  buttonPayload : Option String
deriving Repr, DecidableEq

/-- JS `String.prototype.split` with a single-character separator, over the
character list. -/
def splitChars (sep : Char) : List Char → List (List Char)
  | [] => [[]]
  | c :: rest =>
      match splitChars sep rest with
      | [] => [[]]
      | h :: t => if c = sep then [] :: h :: t else (c :: h) :: t

def jsSplit (sep : Char) (s : String) : List String :=
  (splitChars sep s.toList).map String.mk

/-- `const [action, storeId, orderId] = msg.button?.payload?.split(":") || []`. -/
def payloadParts (payload : Option String) :
    Option String × Option String × Option String :=
  match payload with
  | none => (none, none, none)
  | some p =>
      let parts := jsSplit ':' p
      (parts.get? 0, parts.get? 1, parts.get? 2)

/-- The update object built by the src/index.js reply handler (lines 260-275):
the `status` ternary has only two arms. -/
def waUpdateIndex (action : Option String) (now : Nat) : WaUpdate :=
  { status := if action = some "CONFIRM_ORDER" then "confirmed" else "cancelled"
    lastCustomerReplyAt := now
    confirmedAt := if action = some "CONFIRM_ORDER" then some now else none
    cancelledAt := if action = some "CANCEL_ORDER" then some now else none
    lastMsgSentAt := if action = some "CONFIRM_ORDER" then some now
                     else if action = some "CANCEL_ORDER" then some now else none
    whatsapp := ⟨true, false, true⟩ }

/-- The update object built by the part_000 reply handler (lines 474-491): the
`status` ternary falls back to the previously read `order.status`. -/
def waUpdatePart000 (action : Option String) (currentStatus : String) (now : Nat) :
    WaUpdate :=
  { status := if action = some "CONFIRM_ORDER" then "confirmed"
              else if action = some "CANCEL_ORDER" then "cancelled"
              else currentStatus
    lastCustomerReplyAt := now
    confirmedAt := if action = some "CONFIRM_ORDER" then some now else none
    cancelledAt := if action = some "CANCEL_ORDER" then some now else none
    lastMsgSentAt := if action = some "CONFIRM_ORDER" then some now
                     else if action = some "CANCEL_ORDER" then some now else none
    whatsapp := ⟨true, false, true⟩ }

/-- `app.post("/webhook/whatsapp")` from src/index.js (lines 216-276).
`now` models `Date.now()`. -/
def whatsappWebhookIndex (msg : WaMessage) (db : DB) (now : Nat) : List Effect :=
  match normalizePhone msg.fromPhone with
  | none => []
  | some phone =>
    let (action, storeId, orderId) := payloadParts msg.buttonPayload
    match dbGetOrder db (jsStr storeId) (jsStr orderId) with
    | none => []
    | some order =>
      match dbGetSecrets db (jsStr storeId) with
      | none => []
      | some store =>
        let branchEffects :=
          if action = some "CONFIRM_ORDER" then
            [Effect.shopifyNote (jsStr orderId) store.SHOPIFY_SHOP
              store.SHOPIFY_ACCESS_TOKEN "✅ Order Confirmed"]
          else if action = some "CANCEL_ORDER" then
            [Effect.shopifyNote (jsStr orderId) store.SHOPIFY_SHOP
              store.SHOPIFY_ACCESS_TOKEN "❌ Order Cancelled"]
          else []
        let templateName :=
          if action = some "CONFIRM_ORDER" then "order_confirmed_reply"
          else if action = some "CANCEL_ORDER" then "order_cancelled_reply_auto"
          else ""
        let bodyParams :=
          if action = some "CONFIRM_ORDER" then [order.customer.name, order.order_name]
          else if action = some "CANCEL_ORDER" then [order.order_name]
          else []
        branchEffects ++ sendWhatsAppTemplate (some phone) templateName bodyParams [] none ++
          [Effect.waDbUpdate (jsStr storeId) (jsStr orderId) (waUpdateIndex action now)]

/-! ### PostEx courier integration (part_000 only) -/

def postExPayload (order : Order) (store : Secrets) : PostExPayload :=
  { cityName := jsStrOrD order.customer.city "Unknown"
    customerName := order.customer.name
    customerPhone := order.customer.phone
    deliveryAddress := jsStrOrD order.customer.address "N/A"
    invoiceDivision := 1
    invoicePayment := if jsTruthyStr order.amount.total
                      then .str (order.amount.total.getD "") else .num 0
    items := jsNumOrD (some order.product.qty) 1
    orderDetail := jsStrOrD (some order.product.name) ""
    orderRefNumber := order.order_name
    orderType := "Normal"
    transactionNotes := jsStrOrD order.notes ""
    pickupAddressCode := jsStrOrD store.pickupAddressCode ""
    storeAddressCode := jsStrOrD store.storeAddressCode "" }

/-- `createPostExOrder`: the axios call outcome is modelled by the
`bookResult` oracle (`some t` = statusCode "200" with tracking number `t`,
`none` = failure or non-200). -/
def createPostExOrder (order : Order) (store : Secrets)
    (bookResult : Option String) : List Effect × Option String :=
  if ¬ jsTruthyStr store.POSTEX_API_TOKEN then ([], none)
  else ([Effect.postexCreate (postExPayload order store)], bookResult)

/-- `createPostExOrderIfAllowed` (part_000 lines 244-273). -/
def createPostExOrderIfAllowed (order : Order) (store : Secrets)
    (bookResult : Option String) (now : Nat) : List Effect × Option String :=
  if ¬ jsTruthyStr store.POSTEX_API_TOKEN then ([], none)
  else if ¬ store.autoPostExBooking then ([], none)
  else
    match createPostExOrder order store bookResult with
    | (effs, none) => (effs, none)
    | (effs, some t) =>
        (effs ++
          [Effect.shopifyNote order.order_id store.SHOPIFY_SHOP
             store.SHOPIFY_ACCESS_TOKEN
             ("✅ Order booked on PostEx, Tracking #: " ++ t),
           Effect.postexBookedDbUpdate (jsStr store.store_id) order.order_id
             { trackingNumber := t, bookedAt := now, postex_status := "Booked",
               status := "fulfilled" }],
         some t)

/-! ### The part_000 customer-reply webhook (with the const-reassignment bug) -/

inductive JsError where
  | constAssignTypeError
deriving Repr, DecidableEq

/-- Result of the part_000 reply handler: `threw = some e` models an uncaught
exception ending the async handler (the HTTP 200 was already sent). -/
structure P0Result where
  threw : Option JsError
  effects : List Effect
deriving Repr, DecidableEq

/-- The order fetched from the button payload when both ids are truthy:
`if (storeId && orderId) order = await dbGet(...)`. -/
def payloadOrderLookup (db : DB)
    (parts : Option String × Option String × Option String) : Option Order :=
  if jsTruthyStr parts.2.1 && jsTruthyStr parts.2.2 then
    dbGetOrder db (jsStr parts.2.1) (jsStr parts.2.2)
  else none

/-- `app.post("/webhook/whatsapp")` from src/unnamed/part_000 (lines 393-507).
When the payload lookup misses and `findLatestStoreByPhone` finds a match, the
line `storeId = latest.storeId` reassigns a `const`-destructured binding and
raises a `TypeError` before any send or write. -/
def whatsappWebhookPart000 (msg : WaMessage) (db : DB) (now : Nat)
    (bookResult : Option String) : P0Result :=
  match normalizePhone msg.fromPhone with
  | none => ⟨none, []⟩
  | some phone =>
    let parts := payloadParts msg.buttonPayload
    let action := parts.1
    let storeId := parts.2.1
    let orderId := parts.2.2
    match payloadOrderLookup db parts with
    | none =>
        match findLatestStoreByPhone phone db.stores with
        | none => ⟨none, []⟩
        | some _ => ⟨some .constAssignTypeError, []⟩
    | some order =>
      match dbGetSecrets db (jsStr storeId) with
      | none => ⟨none, []⟩
      | some store =>
        let branchEffects :=
          if action = some "CONFIRM_ORDER" then
            [Effect.shopifyNote (jsStr orderId) store.SHOPIFY_SHOP
              store.SHOPIFY_ACCESS_TOKEN "✅ Order Confirmed"] ++
            (createPostExOrderIfAllowed order store bookResult now).1
          else if action = some "CANCEL_ORDER" then
            [Effect.shopifyNote (jsStr orderId) store.SHOPIFY_SHOP
              store.SHOPIFY_ACCESS_TOKEN "❌ Order Cancelled"]
          else []
        let templateName :=
          if action = some "CONFIRM_ORDER" then "order_confirmed_reply"
          else if action = some "CANCEL_ORDER" then "order_cancelled_reply_auto"
          else ""
        let bodyParams :=
          if action = some "CONFIRM_ORDER" then [order.customer.name, order.order_name]
          else if action = some "CANCEL_ORDER" then [order.order_name]
          else []
        let statusText :=
          if order.status = "confirmed" then "CONFIRMED"
          else if order.status = "cancelled" then "CANCELLED" else ""
        let orderLink :=
          "https://web.whatsapp.com/send/?phone=" ++ jsStr store.OWNER_PHONE ++
          "&text=Hey+mujhe+order+%23" ++ order.order_id ++ "+ke+bare+me+baat+karni+hai"
        let mainSend :=
          sendWhatsAppTemplate (some phone) templateName bodyParams [] (some orderLink)
        let update :=
          Effect.waDbUpdate (jsStr storeId) (jsStr orderId)
            (waUpdatePart000 action order.status now)
        let doubleTap :=
          if ¬ jsTruthyStr action ∨ (jsTruthyStr action ∧ order.status ≠
              (if action = some "CONFIRM_ORDER" then "confirmed" else "cancelled")) then
            sendWhatsAppTemplate (some phone) "call_us_template"
              [jsStrOrD (some statusText) "PENDING"] [] (some orderLink)
          else []
        ⟨none, branchEffects ++ mainSend ++ [update] ++ doubleTap⟩

/-! ### The Shopify order-create webhook (identical in both files) -/

structure ShopifyLineItem where
  name : Option String
  quantity : Option Nat
deriving Repr, DecidableEq

/-- The parsed JSON body of the order-create webhook (the fields the code
reads; `JSON.parse` itself is out of embedding scope, so the handler receives
the raw bytes and the parsed payload separately). -/
structure ShopifyOrderPayload where
  id : Nat
  name : String
  customer_first_name : Option String
  customer_phone : Option String
  shipping_address_phone : Option String
  total_price : Option String
  currency : Option String
  line_items : List ShopifyLineItem
  shop_name : Option String
deriving Repr, DecidableEq

/-- JS `String.prototype.replace` with a string pattern: replaces the first
occurrence only. -/
def replaceFirstChars (pat repl : List Char) : List Char → List Char
  | [] => if pat = [] then repl else []
  | c :: rest =>
      if pat.isPrefixOf (c :: rest) then repl ++ (c :: rest).drop pat.length
      else c :: replaceFirstChars pat repl rest

def jsReplaceFirst (s pat repl : String) : String :=
  String.mk (replaceFirstChars pat.toList repl.toList s.toList)

def jsToLower (s : String) : String := String.mk (s.toList.map Char.toLower)

/-- `shopDomain.replace(".myshopify.com", "").toLowerCase()`. -/
def shopUsernameOf (shopDomain : String) : String :=
  jsToLower (jsReplaceFirst shopDomain ".myshopify.com" "")

/-- The fresh order record written by `dbSet` in the order-create webhook. -/
def newOrderRecord (o : ShopifyOrderPayload) (phone : String) (now : Nat) : Order :=
  { order_id := toString o.id
    order_name := o.name
    customer := { name := jsStrOrD o.customer_first_name "Customer",
                  phone := some phone, city := none, address := none }
    amount := { total := o.total_price, currency := o.currency }
    product := { name := jsStrOrD (o.line_items.head?.bind (·.name)) "Product"
                 qty := jsNumOrD (o.line_items.head?.bind (·.quantity)) 1 }
    status := "pending"
    timeline := { createdAt := some now, confirmedAt := .str "waiting",
                  fulfilledAt := .str "waiting", deliveredAt := .str "waiting",
                  cancelledAt := none, lastMsgSentAt := some now,
                  lastCustomerReplyAt := none }
    whatsapp := { confirmation_sent := true, fulfilled_sent := false,
                  confirmation_reply := false }
    postex := none
    notes := none }

/-- `app.post("/webhook/shopify/order")` (src/index.js lines 278-357,
src/unnamed/part_000 lines 509-588): note that it runs `dbSet` and the
confirmation send unconditionally, with no existence check for the order id. -/
def shopifyOrderWebhook (shopDomain : String) (sigHeader : Option String)
    (rawBody : List Nat) (parsedOrder : ShopifyOrderPayload) (db : DB)
    (now : Nat) : List Effect :=
  let shopUsername := shopUsernameOf shopDomain
  match assocFind db.index shopUsername with
  | none => []
  | some storeId =>
    match dbGetSecrets db storeId with
    | none => []
    | some store =>
      if ¬ verifyShopify store.SHOPIFY_WEBHOOK_SECRET sigHeader rawBody then []
      else
        match normalizePhone
            (jsStrOr parsedOrder.shipping_address_phone parsedOrder.customer_phone) with
        | none => []
        | some phone =>
          let payloadConfirm :=
            "CONFIRM_ORDER:" ++ storeId ++ ":" ++ toString parsedOrder.id
          let payloadCancel :=
            "CANCEL_ORDER:" ++ storeId ++ ":" ++ toString parsedOrder.id
          [Effect.orderSet storeId (toString parsedOrder.id)
             (newOrderRecord parsedOrder phone now)] ++
          sendWhatsAppTemplate (some phone) "order_confirmation"
            [jsStrOrD parsedOrder.customer_first_name "Customer",
             parsedOrder.name,
             jsStrOrD (parsedOrder.line_items.head?.bind (·.name)) "Product",
             jsStrOrD ((parsedOrder.line_items.head?.bind (·.quantity)).map toString) "1",
             jsStrOrD parsedOrder.shop_name "My Store",
             jsStrOrD parsedOrder.total_price "0.00",
             jsStrOrD parsedOrder.currency "USD"]
            [payloadConfirm, payloadCancel] none

/-! ### The Shopify fulfillment webhook (identical in both files) -/

/-- `app.post("/webhook/shopify/fulfillment")` (src/index.js lines 361-407):
writes `status: "fulfilled"` without any check of the current order status. -/
def shopifyFulfillmentWebhook (shopDomain : String) (fulfillmentId : Option Nat)
    (fulfillmentStatus : Option String) (db : DB) (now : Nat) : List Effect :=
  let shopUsername := shopUsernameOf shopDomain
  match assocFind db.index shopUsername with
  | none => []
  | some storeId =>
    let orderId := match fulfillmentId with
      | none => "undefined"
      | some n => toString n
    if orderId = "" then []
    else if fulfillmentStatus ≠ some "fulfilled" then []
    else
      match dbGetOrder db storeId orderId with
      | none => []
      | some order =>
        if ¬ jsTruthyStr order.customer.phone then []
        else
          sendWhatsAppTemplate order.customer.phone "your_order_is_shipped_2025"
            [order.order_name] [] none ++
          [Effect.fulfillDbUpdate storeId orderId
            { status := "fulfilled", fulfilledAt := now, fulfilled_sent := true,
              lastMsgSentAt := now }]

/-! ### The reconciliation poller (part_000 lines 298-337) -/

/-- The body of the inner `for (const orderId in orders)` loop of the cron
job.  `statusHistory` models the array returned by `getPostExOrderStatus`
(empty on API failure).  The poller updates only `postex.lastStatus` and sends
templates; it never writes the order `status` field. -/
def pollOrderBody (storeId orderId : String) (order : Order)
    (statusHistory : List String) : List Effect :=
  let tracking := order.postex.bind (·.trackingNumber)
  if ¬ jsTruthyStr tracking then []
  else
    let lastStatus := statusHistory.getLast?
    if lastStatus ≠ order.postex.bind (·.lastStatus) then
      [Effect.postexStatusDbUpdate storeId orderId lastStatus] ++
      (if lastStatus = some "Out For Delivery" then
        sendWhatsAppTemplate order.customer.phone "your_order_is_shipped_2025"
          [order.order_name] [] none
      else if lastStatus = some "Delivered" then
        sendWhatsAppTemplate order.customer.phone "order_delivered"
          [order.customer.name, order.order_name] [] none
      else [])
    else []

/-- One cron tick: sweep every store and every order.  `statusOracle` maps a
tracking number to the courier status history observed on this tick. -/
def cronTick (db : DB) (statusOracle : String → List String) : List Effect :=
  db.stores.flatMap fun s =>
    s.2.orders.flatMap fun e =>
      pollOrderBody s.1 e.1 e.2
        (statusOracle (jsStr (e.2.postex.bind (·.trackingNumber))))

/-! ### Database image of the writes -/

def defaultPostex : PostexNode := ⟨none, none, none, none⟩

def applyWaUpdate (o : Order) (u : WaUpdate) : Order :=
  { o with
    status := u.status
    timeline := { o.timeline with
      lastCustomerReplyAt := some u.lastCustomerReplyAt
      confirmedAt := match u.confirmedAt with
        | some t => .num t
        | none => o.timeline.confirmedAt
      cancelledAt := match u.cancelledAt with
        | some t => some t
        | none => o.timeline.cancelledAt
      lastMsgSentAt := match u.lastMsgSentAt with
        | some t => some t
        | none => o.timeline.lastMsgSentAt }
    whatsapp := u.whatsapp }

def applyFulfillUpdate (o : Order) (u : FulfillUpdate) : Order :=
  { o with
    status := u.status
    timeline := { o.timeline with
      fulfilledAt := .num u.fulfilledAt
      lastMsgSentAt := some u.lastMsgSentAt }
    whatsapp := { o.whatsapp with fulfilled_sent := u.fulfilled_sent } }

def applyPostexBooked (o : Order) (u : PostexBookedUpdate) : Order :=
  { o with
    status := u.status
    postex := some { trackingNumber := some u.trackingNumber, lastStatus := none,
                     bookedAt := some u.bookedAt, status := some u.postex_status } }

def applyPostexStatus (o : Order) (v : Option String) : Order :=
  { o with postex := some { (o.postex.getD defaultPostex) with lastStatus := v } }

/-- How one effect changes the order document at `stores/{storeId}/orders/{orderId}`
(notification and REST effects leave the store untouched). -/
def applyEffectToOrder (storeId orderId : String) (o : Order) : Effect → Order
  | .orderSet s i rec => if s = storeId ∧ i = orderId then rec else o
  | .waDbUpdate s i u => if s = storeId ∧ i = orderId then applyWaUpdate o u else o
  | .fulfillDbUpdate s i u => if s = storeId ∧ i = orderId then applyFulfillUpdate o u else o
  | .postexBookedDbUpdate s i u => if s = storeId ∧ i = orderId then applyPostexBooked o u else o
  | .postexStatusDbUpdate s i v => if s = storeId ∧ i = orderId then applyPostexStatus o v else o
  | _ => o

def applyEffects (storeId orderId : String) (o : Order) (effs : List Effect) : Order :=
  effs.foldl (applyEffectToOrder storeId orderId) o

/-! ### Concrete scenario fixtures used by the closed theorems below -/

def c1Secrets : Secrets :=
  { SHOPIFY_SHOP := "shop1.myshopify.com", SHOPIFY_ACCESS_TOKEN := "atok1",
    SHOPIFY_WEBHOOK_SECRET := "whsec1", POSTEX_API_TOKEN := none,
    OWNER_PHONE := some "923334445556", store_id := none,
    pickupAddressCode := none, storeAddressCode := none,
    autoPostExBooking := false }

/-- An order that has already reached the terminal status `delivered`. -/
def c1Order : Order :=
  { order_id := "77", order_name := "#77",
    customer := { name := "Ali", phone := some "923001112223",
                  city := none, address := none },
    amount := { total := some "1500", currency := some "PKR" },
    product := { name := "Shirt", qty := 2 },
    status := "delivered",
    timeline := { createdAt := some 100, confirmedAt := .num 200,
                  fulfilledAt := .num 300, deliveredAt := .num 400,
                  cancelledAt := none, lastMsgSentAt := some 400,
                  lastCustomerReplyAt := some 200 },
    whatsapp := ⟨true, true, true⟩, postex := none, notes := none }

def c1Db : DB :=
  { index := [("shop1", "s1")],
    stores := [("s1", { secrets := some c1Secrets, orders := [("77", c1Order)] })] }

def c2Secrets : Secrets :=
  { SHOPIFY_SHOP := "shop2.myshopify.com", SHOPIFY_ACCESS_TOKEN := "atok2",
    SHOPIFY_WEBHOOK_SECRET := "whsec2", POSTEX_API_TOKEN := none,
    OWNER_PHONE := some "923334445557", store_id := none,
    pickupAddressCode := none, storeAddressCode := none,
    autoPostExBooking := false }

/-- An already-processed order: `confirmation_sent` is true and the customer
has confirmed. -/
def c2ExistingOrder : Order :=
  { order_id := "1001", order_name := "#1001",
    customer := { name := "Ali", phone := some "923001234567",
                  city := none, address := none },
    amount := { total := some "1500", currency := some "PKR" },
    product := { name := "Shirt", qty := 2 },
    status := "confirmed",
    timeline := { createdAt := some 100, confirmedAt := .num 600,
                  fulfilledAt := .str "waiting", deliveredAt := .str "waiting",
                  cancelledAt := none, lastMsgSentAt := some 600,
                  lastCustomerReplyAt := some 600 },
    whatsapp := ⟨true, false, true⟩, postex := none, notes := none }

def c2Db : DB :=
  { index := [("shop2", "s1")],
    stores := [("s1", { secrets := some c2Secrets,
                        orders := [("1001", c2ExistingOrder)] })] }

/-- The re-delivered order-create payload for the same order id 1001. -/
def c2Payload : ShopifyOrderPayload :=
  { id := 1001, name := "#1001", customer_first_name := some "Ali",
    customer_phone := some "03001234567", shipping_address_phone := none,
    total_price := some "1500", currency := some "PKR",
    line_items := [⟨some "Shirt", some 2⟩], shop_name := some "Shop Two" }

def c2Raw : List Nat := Crypto.strToBytes "\x7b\"id\":1001\x7d"

/-- A valid signature header for `c2Raw` under the tenant webhook secret. -/
def c2Sig : Option String :=
  some (Crypto.base64Encode (Crypto.hmacSha256 (Crypto.strToBytes "whsec2") c2Raw))

def c3Secrets : Secrets :=
  { SHOPIFY_SHOP := "shop3.myshopify.com", SHOPIFY_ACCESS_TOKEN := "atok3",
    SHOPIFY_WEBHOOK_SECRET := "whsec3", POSTEX_API_TOKEN := none,
    OWNER_PHONE := some "923334445558", store_id := none,
    pickupAddressCode := none, storeAddressCode := none,
    autoPostExBooking := false }

/-- An order already in `confirmed`, with `timeline.confirmedAt` already set
to the number 500. -/
def c3Order : Order :=
  { order_id := "o1", order_name := "#31",
    customer := { name := "Sana", phone := some "923001234567",
                  city := none, address := none },
    amount := { total := some "900", currency := some "PKR" },
    product := { name := "Bag", qty := 1 },
    status := "confirmed",
    timeline := { createdAt := some 100, confirmedAt := .num 500,
                  fulfilledAt := .str "waiting", deliveredAt := .str "waiting",
                  cancelledAt := none, lastMsgSentAt := some 500,
                  lastCustomerReplyAt := some 500 },
    whatsapp := ⟨true, false, true⟩, postex := none, notes := none }

def c3Db : DB :=
  { index := [("shop3", "s1")],
    stores := [("s1", { secrets := some c3Secrets, orders := [("o1", c3Order)] })] }

/-- A second tap of the CONFIRM button for the already-confirmed order. -/
def c3Msg : WaMessage :=
  ⟨some "03001234567", some "CONFIRM_ORDER:s1:o1"⟩

/-- An order with a tracking number whose stored courier status is
`"Booked"`. -/
def c4Order : Order :=
  { order_id := "o4", order_name := "#88",
    customer := { name := "Sara", phone := some "923009998887",
                  city := none, address := none },
    amount := { total := some "700", currency := some "PKR" },
    product := { name := "Cap", qty := 1 },
    status := "out_for_delivery",
    timeline := { createdAt := some 100, confirmedAt := .num 200,
                  fulfilledAt := .num 300, deliveredAt := .str "waiting",
                  cancelledAt := none, lastMsgSentAt := some 300,
                  lastCustomerReplyAt := some 200 },
    whatsapp := ⟨true, true, true⟩,
    postex := some ⟨some "TRK1", some "Booked", some 10, some "Booked"⟩,
    notes := none }

def c4History : List String := ["Booked", "Out For Delivery", "Delivered"]

def c5Secrets : Secrets :=
  { SHOPIFY_SHOP := "shop5.myshopify.com", SHOPIFY_ACCESS_TOKEN := "atok5",
    SHOPIFY_WEBHOOK_SECRET := "whsec5", POSTEX_API_TOKEN := some "ptok5",
    OWNER_PHONE := some "923330001112", store_id := some "s5",
    pickupAddressCode := some "PA1", storeAddressCode := none,
    autoPostExBooking := true }

/-- An order that already has a courier tracking number. -/
def c5Order : Order :=
  { order_id := "o5", order_name := "#55",
    customer := { name := "Bilal", phone := some "923012345678",
                  city := some "Lahore", address := some "House 1" },
    amount := { total := some "2500", currency := some "PKR" },
    product := { name := "Shoes", qty := 1 },
    status := "confirmed",
    timeline := { createdAt := some 100, confirmedAt := .num 500,
                  fulfilledAt := .str "waiting", deliveredAt := .str "waiting",
                  cancelledAt := none, lastMsgSentAt := some 500,
                  lastCustomerReplyAt := some 500 },
    whatsapp := ⟨true, false, true⟩,
    postex := some ⟨some "TRK1", some "Booked", some 11, some "Booked"⟩,
    notes := none }

def c5Db : DB :=
  { index := [("shop5", "s5")],
    stores := [("s5", { secrets := some c5Secrets, orders := [("o5", c5Order)] })] }

def c5Msg : WaMessage :=
  ⟨some "03012345678", some "CONFIRM_ORDER:s5:o5"⟩

def c6OrderA : Order :=
  { order_id := "oA", order_name := "#A",
    customer := { name := "Maha", phone := some "923007770001",
                  city := none, address := none },
    amount := { total := some "100", currency := some "PKR" },
    product := { name := "Pen", qty := 1 },
    status := "pending",
    timeline := { createdAt := some 1, confirmedAt := .str "waiting",
                  fulfilledAt := .str "waiting", deliveredAt := .str "waiting",
                  cancelledAt := none, lastMsgSentAt := some 100,
                  lastCustomerReplyAt := none },
    whatsapp := ⟨true, false, false⟩, postex := none, notes := none }

def c6OrderB : Order :=
  { c6OrderA with
    order_id := "oB", order_name := "#B",
    timeline := { createdAt := some 2, confirmedAt := .str "waiting",
                  fulfilledAt := .str "waiting", deliveredAt := .str "waiting",
                  cancelledAt := none, lastMsgSentAt := some 100,
                  lastCustomerReplyAt := none } }

/-- Two tenants, each holding an order for the same phone; the two orders tie
on `lastMsgSentAt` (100) and differ on `createdAt` (1 vs 2). -/
def c6Stores : List (String × StoreNode) :=
  [("s1", { secrets := none, orders := [("oA", c6OrderA)] }),
   ("s2", { secrets := none, orders := [("oB", c6OrderB)] })]

/-- A free-text reply (no button payload) from a phone with no orders. -/
def c7Msg : WaMessage := ⟨some "03001230001", none⟩

def c7EmptyDb : DB := ⟨[], []⟩

/-- A database in which the fallback phone lookup does find a match for
the normalized phone 923001230001. -/
def c7Order : Order :=
  { c6OrderA with
    order_id := "o7", order_name := "#7",
    customer := { name := "Hina", phone := some "923001230001",
                  city := none, address := none } }

def c7Db : DB :=
  ⟨[], [("s7", { secrets := some c1Secrets, orders := [("o7", c7Order)] })]⟩

def c8Body1 : List Nat := Crypto.strToBytes "\x7b\"a\":1\x7d"

/-- The same JSON re-serialized with different whitespace. -/
def c8Body2 : List Nat := Crypto.strToBytes "\x7b \"a\": 1 \x7d"

def c10Secrets : Secrets :=
  { SHOPIFY_SHOP := "shop10.myshopify.com", SHOPIFY_ACCESS_TOKEN := "atok10",
    SHOPIFY_WEBHOOK_SECRET := "whsec10", POSTEX_API_TOKEN := none,
    OWNER_PHONE := some "923334445559", store_id := none,
    pickupAddressCode := none, storeAddressCode := none,
    autoPostExBooking := false }

def c10Order : Order :=
  { order_id := "o9", order_name := "#99",
    customer := { name := "Omar", phone := some "923001112299",
                  city := none, address := none },
    amount := { total := some "1200", currency := some "PKR" },
    product := { name := "Hat", qty := 1 },
    status := "pending",
    timeline := { createdAt := some 100, confirmedAt := .str "waiting",
                  fulfilledAt := .str "waiting", deliveredAt := .str "waiting",
                  cancelledAt := none, lastMsgSentAt := some 100,
                  lastCustomerReplyAt := none },
    whatsapp := ⟨true, false, false⟩, postex := none, notes := none }

def c10Db : DB :=
  { index := [("shop10", "s1")],
    stores := [("s1", { secrets := some c10Secrets, orders := [("o9", c10Order)] })] }

/-- A reply whose button payload carries an action that is neither
CONFIRM_ORDER nor CANCEL_ORDER but still resolves to a stored order. -/
def c10Msg : WaMessage := ⟨some "03001112299", some "FOO:s1:o9"⟩

/-- The `dbUpdate` payloads among a list of effects. -/
def waUpdatesOf (effs : List Effect) : List WaUpdate :=
  effs.filterMap fun e =>
    match e with
    | .waDbUpdate _ _ u => some u
    | _ => none

/-- The entries scanned by `findLatestStoreByPhone` whose customer phone
matches, in enumeration order (outer store loop, inner order loop). -/
def phoneMatches (phone : String) (stores : List (String × StoreNode)) :
    List FoundMatch :=
  stores.flatMap fun s => s.2.orders.filterMap fun e =>
    if e.2.customer.phone = some phone then some ⟨s.1, e.1, e.2⟩ else none

/-- The accumulator step of the scan, restricted to matching entries. -/
def selStep (acc : Option FoundMatch × Nat) (m : FoundMatch) :
    Option FoundMatch × Nat :=
  if acc.2 < replyMatchTime m.order then (some m, replyMatchTime m.order) else acc

end Automation

namespace Automation

set_option maxRecDepth 1000000

/-- C1: the claim says a stored status of `delivered` is terminal, but the
fulfillment webhook performs no status check at all: on a fulfillment event
for an order whose stored status is `delivered`, it re-sends the shipped
template and writes `status: "fulfilled"`, moving the order backwards along
the claimed DAG. -/
theorem c1_fulfillment_moves_delivered_back :
    c1Order.status = "delivered" ∧
    shopifyFulfillmentWebhook "Shop1.myshopify.com" (some 77) (some "fulfilled")
      c1Db 2000 =
      [Effect.sendTemplate "923001112223" "your_order_is_shipped_2025" ["#77"] [] none,
       Effect.fulfillDbUpdate "s1" "77"
         { status := "fulfilled", fulfilledAt := 2000, fulfilled_sent := true,
           lastMsgSentAt := 2000 }] ∧
    (applyEffects "s1" "77" c1Order
      (shopifyFulfillmentWebhook "Shop1.myshopify.com" (some 77) (some "fulfilled")
        c1Db 2000)).status = "fulfilled" := by
  decide

/-- C2: the claim says a re-delivered OrderCreated event for an existing order
with `confirmation_sent = true` sends no second confirmation and keeps the
record; the handler has no existence check: with a valid signature it
overwrites the stored order with a fresh `pending` record (`dbSet`) and sends
the confirmation template again. -/
theorem c2_order_create_overwrites_and_resends :
    dbGetOrder c2Db "s1" "1001" = some c2ExistingOrder ∧
    c2ExistingOrder.whatsapp.confirmation_sent = true ∧
    shopifyOrderWebhook "shop2.myshopify.com" c2Sig c2Raw c2Payload c2Db 3000 =
      [Effect.orderSet "s1" "1001" (newOrderRecord c2Payload "923001234567" 3000),
       Effect.sendTemplate "923001234567" "order_confirmation"
         ["Ali", "#1001", "Shirt", "2", "Shop Two", "1500", "PKR"]
         ["CONFIRM_ORDER:s1:1001", "CANCEL_ORDER:s1:1001"] none] ∧
    (applyEffects "s1" "1001" c2ExistingOrder
      (shopifyOrderWebhook "shop2.myshopify.com" c2Sig c2Raw c2Payload c2Db 3000)).status
      = "pending" := by
  decide

/-- C3: the claim says a CONFIRM reply on an already-`confirmed` order takes a
restatement branch with zero writes to `timeline.confirmedAt`; the src/index.js
handler instead re-runs the CONFIRM branch: it sends `order_confirmed_reply`
again and its `dbUpdate` writes `timeline/confirmedAt` anew (500 becomes
1000). -/
theorem c3_confirm_on_confirmed_rewrites_confirmedAt :
    c3Order.status = "confirmed" ∧
    c3Order.timeline.confirmedAt = .num 500 ∧
    whatsappWebhookIndex c3Msg c3Db 1000 =
      [Effect.shopifyNote "o1" "shop3.myshopify.com" "atok3" "✅ Order Confirmed",
       Effect.sendTemplate "923001234567" "order_confirmed_reply" ["Sana", "#31"] [] none,
       Effect.waDbUpdate "s1" "o1"
         { status := "confirmed", lastCustomerReplyAt := 1000,
           confirmedAt := some 1000, cancelledAt := none,
           lastMsgSentAt := some 1000, whatsapp := ⟨true, false, true⟩ }] ∧
    (applyEffects "s1" "o1" c3Order
      (whatsappWebhookIndex c3Msg c3Db 1000)).timeline.confirmedAt = .num 1000 := by
  decide

/-- C5: the claim says a CONFIRM reply on an order that already has a tracking
number does not invoke courier booking again; neither the CONFIRM branch nor
`createPostExOrderIfAllowed` checks `postex.trackingNumber`, so the booking
call is issued again and a successful re-booking overwrites the stored
tracking number (TRK1 becomes TRK2). -/
theorem c5_confirm_rebooks_despite_tracking :
    (c5Order.postex.bind (·.trackingNumber)) = some "TRK1" ∧
    whatsappWebhookPart000 c5Msg c5Db 1000 (some "TRK2") =
      ⟨none,
       [Effect.shopifyNote "o5" "shop5.myshopify.com" "atok5" "✅ Order Confirmed",
        Effect.postexCreate
          { cityName := "Lahore", customerName := "Bilal",
            customerPhone := some "923012345678", deliveryAddress := "House 1",
            invoiceDivision := 1, invoicePayment := .str "2500", items := 1,
            orderDetail := "Shoes", orderRefNumber := "#55", orderType := "Normal",
            transactionNotes := "", pickupAddressCode := "PA1",
            storeAddressCode := "" },
        Effect.shopifyNote "o5" "shop5.myshopify.com" "atok5"
          "✅ Order booked on PostEx, Tracking #: TRK2",
        Effect.postexBookedDbUpdate "s5" "o5"
          { trackingNumber := "TRK2", bookedAt := 1000, postex_status := "Booked",
            status := "fulfilled" },
        Effect.sendTemplate "923012345678" "order_confirmed_reply" ["Bilal", "#55"] []
          (some "https://web.whatsapp.com/send/?phone=923330001112&text=Hey+mujhe+order+%23o5+ke+bare+me+baat+karni+hai"),
        Effect.waDbUpdate "s5" "o5"
          { status := "confirmed", lastCustomerReplyAt := 1000,
            confirmedAt := some 1000, cancelledAt := none,
            lastMsgSentAt := some 1000, whatsapp := ⟨true, false, true⟩ }]⟩ ∧
    ((applyEffects "s5" "o5" c5Order
      (whatsappWebhookPart000 c5Msg c5Db 1000 (some "TRK2")).effects).postex.bind
        (·.trackingNumber)) = some "TRK2" := by
  decide

/-- C4 counterexample: the poller observes courier status `"Delivered"` for an
order whose stored status is `out_for_delivery` and whose stored courier
status differs; it updates `postex.lastStatus` and sends the delivered
template, but the order `status` field stays `out_for_delivery` — it does not
become `delivered` as the claim states. -/
theorem c4_poller_does_not_set_delivered_status :
    pollOrderBody "s1" "o4" c4Order c4History =
      [Effect.postexStatusDbUpdate "s1" "o4" (some "Delivered"),
       Effect.sendTemplate "923009998887" "order_delivered" ["Sara", "#88"] [] none] ∧
    (applyEffects "s1" "o4" c4Order
      (pollOrderBody "s1" "o4" c4Order c4History)).status = "out_for_delivery" ∧
    (applyEffects "s1" "o4" c4Order
      (pollOrderBody "s1" "o4" c4Order c4History)).status ≠ "delivered" := by
  decide

/-- C6 counterexample: two tenants hold an order for the same phone with equal
`lastMsgSentAt` (100) and `createdAt` 1 vs 2.  The claim says the tie is
broken by the larger `createdAt` (order oB); the code keeps the first match
scanned at equal key time, returning order oA. -/
theorem c6_tie_not_broken_by_createdAt :
    c6OrderA.timeline.lastMsgSentAt = c6OrderB.timeline.lastMsgSentAt ∧
    c6OrderA.timeline.createdAt = some 1 ∧
    c6OrderB.timeline.createdAt = some 2 ∧
    findLatestStoreByPhone "923007770001" c6Stores = some ⟨"s1", "oA", c6OrderA⟩ ∧
    findLatestStoreByPhone "923007770001" c6Stores ≠ some ⟨"s2", "oB", c6OrderB⟩ := by
  decide

/-- C7 counterexample: a reply with no button payload from a phone that
matches no stored order takes the fallback branch but returns at
`if (!latest) return` without reaching the const reassignment: the handler
does not throw, against the claim that every such reply throws a TypeError. -/
theorem c7_no_throw_when_lookup_misses :
    whatsappWebhookPart000 c7Msg c7EmptyDb 0 none = ⟨none, []⟩ := by
  decide

/-- C8: `verifyShopify` accepts exactly when the signature header is present
and equals the base64 HMAC-SHA256 of the exact raw body bytes under the
secret.  In particular, for the spec example of the same JSON re-serialized
with different whitespace, the digests differ and verification rejects. -/
theorem c8_verify_accepts_iff_hmac_matches :
    (∀ (w : String) (hdr : Option String) (buf : List Nat),
      verifyShopify w hdr buf = true ↔
        hdr = some (Crypto.base64Encode
          (Crypto.hmacSha256 (Crypto.strToBytes w) buf))) ∧
    c8Body1 ≠ c8Body2 ∧
    verifyShopify "whsec8"
      (some (Crypto.base64Encode
        (Crypto.hmacSha256 (Crypto.strToBytes "whsec8") c8Body1))) c8Body1 = true ∧
    verifyShopify "whsec8"
      (some (Crypto.base64Encode
        (Crypto.hmacSha256 (Crypto.strToBytes "whsec8") c8Body1))) c8Body2 = false := by
  refine ⟨?_, by decide, by decide, by decide⟩
  intro w hdr buf
  cases hdr with
  | none => simp [verifyShopify]
  | some h => simp [verifyShopify, beq_iff_eq]

theorem waUpdatesOf_append (a b : List Effect) :
    waUpdatesOf (a ++ b) = waUpdatesOf a ++ waUpdatesOf b := by
  simp [waUpdatesOf]

theorem waUpdatesOf_send (p : Option String) (t : String) (b q : List String)
    (u : Option String) : waUpdatesOf (sendWhatsAppTemplate p t b q u) = [] := by
  unfold sendWhatsAppTemplate
  split <;> simp [waUpdatesOf]

/-- C10: whenever the src/index.js reply handler resolves the button payload
to a stored order (and tenant secrets exist), the single `dbUpdate` it issues
is `waUpdateIndex action now`, whose `status` is `"confirmed"` exactly for
action CONFIRM_ORDER and `"cancelled"` for every other action, and whose
`timeline/cancelledAt` key is present exactly for action CANCEL_ORDER — so an
unrecognized action cancels the order without a cancelled timestamp. -/
theorem c10_reply_status_ternary (msg : WaMessage) (db : DB) (now : Nat)
    (phone : String) (order : Order) (store : Secrets)
    (hp : normalizePhone msg.fromPhone = some phone)
    (ho : dbGetOrder db (jsStr (payloadParts msg.buttonPayload).2.1)
            (jsStr (payloadParts msg.buttonPayload).2.2) = some order)
    (hs : dbGetSecrets db (jsStr (payloadParts msg.buttonPayload).2.1) = some store) :
    waUpdatesOf (whatsappWebhookIndex msg db now) =
      [waUpdateIndex (payloadParts msg.buttonPayload).1 now] ∧
    ((waUpdateIndex (payloadParts msg.buttonPayload).1 now).status =
      if (payloadParts msg.buttonPayload).1 = some "CONFIRM_ORDER" then "confirmed"
      else "cancelled") ∧
    ((waUpdateIndex (payloadParts msg.buttonPayload).1 now).cancelledAt ≠ none ↔
      (payloadParts msg.buttonPayload).1 = some "CANCEL_ORDER") ∧
    ((waUpdateIndex (payloadParts msg.buttonPayload).1 now).confirmedAt ≠ none ↔
      (payloadParts msg.buttonPayload).1 = some "CONFIRM_ORDER") := by
  refine ⟨?_, by simp [waUpdateIndex], ?_, ?_⟩
  · simp only [whatsappWebhookIndex, hp, ho, hs]
    rw [waUpdatesOf_append, waUpdatesOf_append, waUpdatesOf_send]
    by_cases hA : (payloadParts msg.buttonPayload).1 = some "CONFIRM_ORDER" <;>
      by_cases hB : (payloadParts msg.buttonPayload).1 = some "CANCEL_ORDER" <;>
      simp [hA, hB, waUpdatesOf]
  · unfold waUpdateIndex
    split <;> simp_all
  · unfold waUpdateIndex
    split <;> simp_all

/-- C10 witness: the unrecognized action `"FOO"` on a resolved order leads to
a single update with status `"cancelled"` and no cancelled timestamp. -/
theorem c10_reply_status_ternary_applied :
    waUpdatesOf (whatsappWebhookIndex c10Msg c10Db 7) =
      [waUpdateIndex (some "FOO") 7] ∧
    (waUpdateIndex (some "FOO") 7).status = "cancelled" ∧
    (waUpdateIndex (some "FOO") 7).cancelledAt = none := by
  have h := c10_reply_status_ternary c10Msg c10Db 7 "923001112299" c10Order
    c10Secrets (by decide) (by decide) (by decide)
  exact ⟨h.1.trans (by decide), by decide, by decide⟩

/-- C7 amended: whenever the button payload is absent or does not resolve to a
stored order, the part_000 reply handler performs no send and no write; it
throws the const-reassignment TypeError exactly when the phone-based fallback
lookup finds a match, and returns cleanly when it does not. -/
theorem c7_fallback_no_effects (msg : WaMessage) (db : DB) (now : Nat)
    (book : Option String)
    (h : payloadOrderLookup db (payloadParts msg.buttonPayload) = none) :
    (whatsappWebhookPart000 msg db now book).effects = [] ∧
    (whatsappWebhookPart000 msg db now book).threw =
      (match normalizePhone msg.fromPhone with
       | none => none
       | some phone =>
         match findLatestStoreByPhone phone db.stores with
         | none => none
         | some _ => some JsError.constAssignTypeError) := by
  unfold whatsappWebhookPart000
  cases hp : normalizePhone msg.fromPhone with
  | none => exact ⟨rfl, rfl⟩
  | some phone =>
    simp only [h]
    cases hf : findLatestStoreByPhone phone db.stores with
    | none => simp
    | some m => simp

/-- C7 witness: with no button payload and a database in which the fallback
lookup does find an order for the phone, the handler throws the TypeError and
performs no send and no write. -/
theorem c7_fallback_no_effects_applied :
    (whatsappWebhookPart000 c7Msg c7Db 0 none).effects = [] ∧
    (whatsappWebhookPart000 c7Msg c7Db 0 none).threw =
      some JsError.constAssignTypeError := by
  have h := c7_fallback_no_effects c7Msg c7Db 0 none (by decide)
  exact ⟨h.1, h.2.trans (by decide)⟩

/-- C4 amended, part 1 of the proof: the poller body for an order with a
truthy tracking number. -/
theorem c4_poller_guard_and_frame (sid oid : String) (order : Order)
    (h : List String)
    (ht : jsTruthyStr (order.postex.bind (·.trackingNumber)) = true) :
    (pollOrderBody sid oid order h = [] ↔
      h.getLast? = order.postex.bind (·.lastStatus)) ∧
    (applyEffects sid oid order (pollOrderBody sid oid order h)).status =
      order.status ∧
    pollOrderBody sid oid (applyEffects sid oid order (pollOrderBody sid oid order h))
      h = [] := by
  obtain ⟨p, hp⟩ : ∃ p, order.postex = some p := by
    cases hpx : order.postex with
    | none => rw [hpx] at ht; simp [jsTruthyStr] at ht
    | some p => exact ⟨p, rfl⟩
  by_cases hg : h.getLast? = order.postex.bind (·.lastStatus)
  · have he : pollOrderBody sid oid order h = [] := by
      unfold pollOrderBody
      simp only [ht]
      simp [hg]
    refine ⟨by simp [he, hg], by simp [he, applyEffects], by simp [he, applyEffects]⟩
  · have he : pollOrderBody sid oid order h =
        Effect.postexStatusDbUpdate sid oid h.getLast? ::
        (if h.getLast? = some "Out For Delivery" then
          sendWhatsAppTemplate order.customer.phone "your_order_is_shipped_2025"
            [order.order_name] [] none
        else if h.getLast? = some "Delivered" then
          sendWhatsAppTemplate order.customer.phone "order_delivered"
            [order.customer.name, order.order_name] [] none
        else []) := by
      unfold pollOrderBody
      simp only [ht]
      simp [hg]
    have happ : applyEffects sid oid order (pollOrderBody sid oid order h) =
        applyPostexStatus order h.getLast? := by
      rw [he]
      unfold applyEffects
      rw [List.foldl_cons]
      have h1 : applyEffectToOrder sid oid order
          (Effect.postexStatusDbUpdate sid oid h.getLast?) =
          applyPostexStatus order h.getLast? := by
        simp [applyEffectToOrder]
      rw [h1]
      split
      · unfold sendWhatsAppTemplate
        split
        · simp
        · simp [applyEffectToOrder]
      · split
        · unfold sendWhatsAppTemplate
          split
          · simp
          · simp [applyEffectToOrder]
        · simp
    refine ⟨by simp [he, hg], by rw [happ]; simp [applyPostexStatus], ?_⟩
    rw [happ]
    have htr : (applyPostexStatus order h.getLast?).postex.bind (·.trackingNumber) =
        order.postex.bind (·.trackingNumber) := by
      simp [applyPostexStatus, hp, defaultPostex]
    have hls : (applyPostexStatus order h.getLast?).postex.bind (·.lastStatus) =
        h.getLast? := by
      simp [applyPostexStatus, hp, defaultPostex]
    unfold pollOrderBody
    simp only [htr, ht, hls]
    simp

/-- C4 witness for `c4_poller_guard_and_frame`: applied to the concrete
delivered-observation scenario. -/
theorem c4_poller_guard_and_frame_applied :
    jsTruthyStr (c4Order.postex.bind (·.trackingNumber)) = true ∧
    (applyEffects "s1" "o4" c4Order
      (pollOrderBody "s1" "o4" c4Order c4History)).status = c4Order.status ∧
    pollOrderBody "s1" "o4"
      (applyEffects "s1" "o4" c4Order (pollOrderBody "s1" "o4" c4Order c4History))
      c4History = [] := by
  have h := c4_poller_guard_and_frame "s1" "o4" c4Order c4History (by decide)
  exact ⟨by decide, h.2.1, h.2.2⟩

theorem flspStep_eq (phone sid : String) (acc : Option FoundMatch × Nat)
    (e : String × Order) :
    flspStep phone sid acc e =
    if e.2.customer.phone = some phone then selStep acc ⟨sid, e.1, e.2⟩ else acc := rfl

theorem inner_fold (phone sid : String) (orders : List (String × Order))
    (acc : Option FoundMatch × Nat) :
    orders.foldl (flspStep phone sid) acc =
    (orders.filterMap fun e =>
      if e.2.customer.phone = some phone then
        some (⟨sid, e.1, e.2⟩ : FoundMatch)
      else none).foldl selStep acc := by
  induction orders generalizing acc with
  | nil => rfl
  | cons e tl ih =>
    rw [List.foldl_cons, List.filterMap_cons, flspStep_eq]
    by_cases hm : e.2.customer.phone = some phone
    · simp only [hm, ite_true]
      rw [List.foldl_cons]
      exact ih _
    · simp only [hm, ite_false]
      exact ih _

theorem findLatest_eq_selFold (phone : String) (stores : List (String × StoreNode)) :
    findLatestStoreByPhone phone stores =
    ((phoneMatches phone stores).foldl selStep (none, 0)).1 := by
  unfold findLatestStoreByPhone phoneMatches
  suffices h : ∀ acc, stores.foldl (fun acc s => s.2.orders.foldl (flspStep phone s.1) acc) acc =
      (stores.flatMap fun s => s.2.orders.filterMap fun e =>
        if e.2.customer.phone = some phone then
          some (⟨s.1, e.1, e.2⟩ : FoundMatch)
        else none).foldl selStep acc by
    rw [h]
  intro acc
  induction stores generalizing acc with
  | nil => rfl
  | cons s tl ih =>
    rw [List.foldl_cons, List.flatMap_cons, List.foldl_append, inner_fold]
    exact ih _

theorem selFold_bound (l : List FoundMatch) (acc : Option FoundMatch × Nat) :
    acc.2 ≤ (l.foldl selStep acc).2 ∧
    ∀ m ∈ l, replyMatchTime m.order ≤ (l.foldl selStep acc).2 := by
  induction l generalizing acc with
  | nil => simp
  | cons m tl ih =>
    rw [List.foldl_cons]
    have h1 : acc.2 ≤ (selStep acc m).2 ∧
        replyMatchTime m.order ≤ (selStep acc m).2 := by
      unfold selStep
      split
      · exact ⟨by simp; omega, by simp⟩
      · constructor
        · exact le_refl _
        · omega
    obtain ⟨ih1, ih2⟩ := ih (selStep acc m)
    refine ⟨le_trans h1.1 ih1, ?_⟩
    intro x hx
    rcases List.mem_cons.mp hx with rfl | hx2
    · exact le_trans h1.2 ih1
    · exact ih2 x hx2

theorem selFold_shape (l : List FoundMatch) (acc : Option FoundMatch × Nat) :
    l.foldl selStep acc = acc ∨
    ∃ m ∈ l, l.foldl selStep acc = (some m, replyMatchTime m.order) ∧
      acc.2 < replyMatchTime m.order := by
  induction l generalizing acc with
  | nil => exact Or.inl rfl
  | cons m tl ih =>
    rw [List.foldl_cons]
    by_cases hf : acc.2 < replyMatchTime m.order
    · have hs : selStep acc m = (some m, replyMatchTime m.order) := by
        unfold selStep; simp [hf]
      rw [hs]
      rcases ih (some m, replyMatchTime m.order) with h | ⟨m2, hm2, heq, hlt⟩
      · exact Or.inr ⟨m, List.mem_cons_self m tl, h, hf⟩
      · exact Or.inr ⟨m2, List.mem_cons_of_mem m hm2, heq, lt_trans hf hlt⟩
    · have hs : selStep acc m = acc := by
        unfold selStep; simp [hf]
      rw [hs]
      rcases ih acc with h | ⟨m2, hm2, heq, hlt⟩
      · exact Or.inl h
      · exact Or.inr ⟨m2, List.mem_cons_of_mem m hm2, heq, hlt⟩

/-- C6 amended: `findLatestStoreByPhone` returns `none` exactly when every
matching order has key time 0, where the key time is
`lastMsgSentAt || createdAt || 0` (not the greater of the two); a returned
match is a matching entry of maximal, positive key time; and when exactly two
matches tie on key time, the first-enumerated one is returned — `createdAt`
does not break ties. -/
theorem c6_latest_by_phone_code_semantics (phone : String)
    (stores : List (String × StoreNode)) :
    (findLatestStoreByPhone phone stores = none ↔
      ∀ m ∈ phoneMatches phone stores, replyMatchTime m.order = 0) ∧
    (∀ m, findLatestStoreByPhone phone stores = some m →
      m ∈ phoneMatches phone stores ∧ 0 < replyMatchTime m.order ∧
      ∀ m2 ∈ phoneMatches phone stores,
        replyMatchTime m2.order ≤ replyMatchTime m.order) ∧
    (∀ a b, phoneMatches phone stores = [a, b] →
      replyMatchTime a.order = replyMatchTime b.order →
      0 < replyMatchTime a.order →
      findLatestStoreByPhone phone stores = some a) := by
  have hfe := findLatest_eq_selFold phone stores
  refine ⟨⟨?_, ?_⟩, ?_, ?_⟩
  · intro hn m hm
    rcases selFold_shape (phoneMatches phone stores) (none, 0) with h | ⟨m2, hm2, heq, hlt⟩
    · have hb := (selFold_bound (phoneMatches phone stores) (none, 0)).2 m hm
      rw [h] at hb
      omega
    · rw [hfe, heq] at hn
      simp at hn
  · intro hz
    rcases selFold_shape (phoneMatches phone stores) (none, 0) with h | ⟨m2, hm2, heq, hlt⟩
    · rw [hfe, h]
    · exfalso
      have := hz m2 hm2
      simp at hlt
      omega
  · intro m hm
    rcases selFold_shape (phoneMatches phone stores) (none, 0) with h | ⟨m2, hm2, heq, hlt⟩
    · rw [hfe, h] at hm
      exact absurd hm (by simp)
    · rw [hfe, heq] at hm
      simp only at hm
      obtain rfl : m2 = m := by simpa using hm
      simp only at hlt
      refine ⟨hm2, hlt, ?_⟩
      intro m3 hm3
      have hb := (selFold_bound (phoneMatches phone stores) (none, 0)).2 m3 hm3
      rw [heq] at hb
      exact hb
  · intro a b hab ht2 h0
    rw [hfe, hab]
    have hno : ¬ (replyMatchTime a.order < replyMatchTime b.order) := by omega
    simp [selStep, h0, hno]

/-- C6 witness: on the two-tenant tie fixture, the amended characterization
yields the first-enumerated match directly. -/
theorem c6_latest_by_phone_code_semantics_applied :
    findLatestStoreByPhone "923007770001" c6Stores = some ⟨"s1", "oA", c6OrderA⟩ := by
  exact (c6_latest_by_phone_code_semantics "923007770001" c6Stores).2.2
    ⟨"s1", "oA", c6OrderA⟩ ⟨"s2", "oB", c6OrderB⟩ (by decide) (by decide) (by decide)

theorem mk_ne_empty {l : List Char} (h : l ≠ []) : String.mk l ≠ "" := by
  intro he
  exact h (congrArg String.data he)

theorem toList_ne {cc : String} (h : cc ≠ "") : cc.toList ≠ [] := by
  intro hl
  apply h
  cases cc with
  | mk l => cases hl; rfl

theorem digitsOf_mk (y : List Char) (hyd : ∀ c ∈ y, c.isDigit = true) :
    digitsOf (String.mk y) = y := by
  simp [digitsOf, List.filter_eq_self.mpr hyd]

theorem jsTruthyStr_mk {y : List Char} (hy : y ≠ []) :
    jsTruthyStr (some (String.mk y)) = true := by
  simp [jsTruthyStr, mk_ne_empty hy]

/-- Outputs of the country-code branches are fixed points of `normalizePhone`:
a digit string that starts with the country code renormalizes to itself. -/
theorem normalizePhone_fix1 (cc : String) (h2 : cc ≠ "")
    (h3 : cc.toList.take 1 ≠ ['0'])
    (y : List Char) (hy : y ≠ []) (hyd : ∀ c ∈ y, c.isDigit = true)
    (hpre : y.take cc.toList.length = cc.toList) :
    normalizePhone (some (String.mk y)) cc = some (String.mk y) := by
  have hlen : 1 ≤ cc.toList.length := by
    have := List.length_pos.mpr (toList_ne h2)
    omega
  have h0y : y.take 1 ≠ ['0'] := by
    have h' : y.take 1 = cc.toList.take 1 := by
      rw [← hpre, List.take_take]
      congr 1
      omega
    rw [h']
    exact h3
  unfold normalizePhone
  simp only [jsTruthyStr_mk hy, not_true, if_false, Option.getD_some,
    digitsOf_mk y hyd, Bool.not_eq_true', ite_false, Bool.true_eq_false]
  rw [if_neg hy, if_neg h0y, if_pos hpre]

/-- The pass-through branch output (long digit string with no leading zero
and no country-code start) is likewise a fixed point. -/
theorem normalizePhone_fix2 (cc : String)
    (y : List Char) (hy : y ≠ []) (hyd : ∀ c ∈ y, c.isDigit = true)
    (h0y : y.take 1 ≠ ['0'])
    (hnp : y.take cc.toList.length ≠ cc.toList)
    (hlong : ¬ y.length ≤ 10) :
    normalizePhone (some (String.mk y)) cc = some (String.mk y) := by
  unfold normalizePhone
  simp only [jsTruthyStr_mk hy, not_true, if_false, Option.getD_some,
    digitsOf_mk y hyd, Bool.not_eq_true', ite_false, Bool.true_eq_false]
  rw [if_neg hy, if_neg h0y, if_neg hnp, if_neg hlong]

/-- C9: for a fixed country code made of digits, nonempty and not starting
with a zero (such as the default `"92"`), `normalizePhone` is total —
`null`/`undefined`, the empty string, and digit-free strings all yield the
defined no-phone result `none` rather than an exception — and idempotent:
renormalizing any output returns it unchanged. -/
theorem c9_normalizePhone_total_idempotent (cc : String)
    (h1 : ∀ c ∈ cc.toList, c.isDigit = true) (h2 : cc ≠ "")
    (h3 : cc.toList.take 1 ≠ ['0']) :
    normalizePhone none cc = none ∧
    normalizePhone (some "") cc = none ∧
    (∀ s : String, digitsOf s = [] → normalizePhone (some s) cc = none) ∧
    (∀ raw : Option String,
      normalizePhone (normalizePhone raw cc) cc = normalizePhone raw cc) := by
  have hccl := toList_ne h2
  have habs : normalizePhone none cc = none := rfl
  have hemp : normalizePhone (some "") cc = none := by
    simp [normalizePhone, jsTruthyStr]
  have hnod : ∀ s : String, digitsOf s = [] → normalizePhone (some s) cc = none := by
    intro s hds
    by_cases hs : s = ""
    · rw [hs]; exact hemp
    · have ht : jsTruthyStr (some s) = true := by simp [jsTruthyStr, hs]
      unfold normalizePhone
      simp only [ht, not_true, if_false, Option.getD_some, Bool.not_eq_true',
        ite_false, Bool.true_eq_false]
      rw [if_pos hds]
  refine ⟨habs, hemp, hnod, ?_⟩
  intro raw
  cases raw with
  | none => rfl
  | some s =>
    by_cases hs : s = ""
    · rw [hs, hemp, habs]
    · by_cases hd0 : digitsOf s = []
      · rw [hnod s hd0, habs]
      · have ht : jsTruthyStr (some s) = true := by simp [jsTruthyStr, hs]
        have hdd : ∀ c ∈ digitsOf s, c.isDigit = true := by
          intro c hc
          exact List.of_mem_filter hc
        by_cases hb1 : (digitsOf s).take 1 = ['0']
        · have hres : normalizePhone (some s) cc =
              some (String.mk (cc.toList ++ (digitsOf s).drop 1)) := by
            unfold normalizePhone
            simp only [ht, not_true, if_false, Option.getD_some, Bool.not_eq_true',
              ite_false, Bool.true_eq_false]
            rw [if_neg hd0, if_pos hb1]
          rw [hres]
          apply normalizePhone_fix1 cc h2 h3
          · intro hcon
            exact hccl (List.append_eq_nil.mp hcon).1
          · intro c hc
            rcases List.mem_append.mp hc with hc1 | hc2
            · exact h1 c hc1
            · exact hdd c (List.drop_subset 1 _ hc2)
          · exact List.take_left cc.toList _
        · by_cases hb2 : (digitsOf s).take cc.toList.length = cc.toList
          · have hres : normalizePhone (some s) cc = some (String.mk (digitsOf s)) := by
              unfold normalizePhone
              simp only [ht, not_true, if_false, Option.getD_some, Bool.not_eq_true',
                ite_false, Bool.true_eq_false]
              rw [if_neg hd0, if_neg hb1, if_pos hb2]
            rw [hres]
            exact normalizePhone_fix1 cc h2 h3 _ hd0 hdd hb2
          · by_cases hb3 : (digitsOf s).length ≤ 10
            · have hres : normalizePhone (some s) cc =
                  some (String.mk (cc.toList ++ digitsOf s)) := by
                unfold normalizePhone
                simp only [ht, not_true, if_false, Option.getD_some, Bool.not_eq_true',
                  ite_false, Bool.true_eq_false]
                rw [if_neg hd0, if_neg hb1, if_neg hb2, if_pos hb3]
              rw [hres]
              apply normalizePhone_fix1 cc h2 h3
              · intro hcon
                exact hccl (List.append_eq_nil.mp hcon).1
              · intro c hc
                rcases List.mem_append.mp hc with hc1 | hc2
                · exact h1 c hc1
                · exact hdd c hc2
              · exact List.take_left cc.toList _
            · have hres : normalizePhone (some s) cc = some (String.mk (digitsOf s)) := by
                unfold normalizePhone
                simp only [ht, not_true, if_false, Option.getD_some, Bool.not_eq_true',
                  ite_false, Bool.true_eq_false]
                rw [if_neg hd0, if_neg hb1, if_neg hb2, if_neg hb3]
              rw [hres]
              exact normalizePhone_fix2 cc _ hd0 hdd hb1 hb2 hb3

/-- C9 witness: the default country code `"92"` satisfies the hypotheses and
renormalizing a normalized number returns it unchanged. -/
theorem c9_normalizePhone_total_idempotent_applied :
    normalizePhone (normalizePhone (some "0300-1234567") "92") "92" =
      normalizePhone (some "0300-1234567") "92" := by
  exact (c9_normalizePhone_total_idempotent "92" (by decide) (by decide)
    (by decide)).2.2.2 (some "0300-1234567")

end Automation
